import Mathlib

/-!
Shallow embedding of the `smart-learning-assistant` backend
(`server/server.js`, both server variants contained in that file) together
with proofs about its chat orchestration, sentiment estimator, persistence
and query services.

Conventions used throughout:
* SQLite `CURRENT_TIMESTAMP` defaults are modelled by a logical clock on the
  database state that is advanced by one on every insert, so each inserted
  row carries a fresh, strictly larger timestamp.
* Numeric sentiment values are modelled over `ℚ` (the JavaScript source adds
  the literal `0.1`, modelled exactly as `1/10`).
* The external completion provider is modelled by a `ProviderResult` input:
  the credential may be missing (`noKey`), the call may throw (`apiError`),
  or it may deliver a parsed body whose
  `data.choices?.[0]?.message?.content` chain is an `Option String`
  (`success`); JavaScript `x || d` on that chain is `jsStringOr`.
* Fallible `db.run` inserts are modelled by a failure oracle
  `failAt : Nat → Bool` telling which insert of the request throws; the
  handler `catch` turns a throw into a generic 500 (`internalError`)
  without rolling back earlier inserts, exactly as in the source, which
  opens no transaction.
-/

namespace SmartLearning

/-- Association-list model of a JavaScript nested-`Map` lookup /
`db.get` (first matching row wins, like SQL without a unique index). -/
def mapGet {α β : Type} [DecidableEq α] : List (α × β) → α → Option β
  | [], _ => none
  | (k2, v) :: rest, k => if k2 = k then some v else mapGet rest k

/-- Association-list model of `Map.prototype.set`: replaces the value at an
existing key, appends a new binding otherwise. -/
def mapSet {α β : Type} [DecidableEq α] : List (α × β) → α → β → List (α × β)
  | [], k, v => [(k, v)]
  | (k2, v2) :: rest, k, v =>
    if k2 = k then (k, v) :: rest else (k2, v2) :: mapSet rest k v

/-- Model of JavaScript `text.split(/\s+/)` walking the character list:
`some cur` means a token `cur` (reversed) is being accumulated, `none` means
the previous character was whitespace and the run is being skipped. A string
beginning or ending with whitespace yields an empty boundary token and the
empty string yields `[""]`, matching the JavaScript regex split. -/
def jsSplitAux : List Char → Option (List Char) → List String
  | [], some cur => [String.mk cur.reverse]
  | [], none => [""]
  | c :: cs, some cur =>
    if c.isWhitespace then String.mk cur.reverse :: jsSplitAux cs none
    else jsSplitAux cs (some (c :: cur))
  | c :: cs, none =>
    if c.isWhitespace then jsSplitAux cs none
    else jsSplitAux cs (some [c])

/-- Application of the split to a whole string, as in `text.split(/\s+/)`. -/
def jsSplitWhitespace (s : String) : List String :=
  jsSplitAux s.data (some [])

/-- Model of JavaScript `text.toLowerCase()`, mapping `Char.toLower` over
the characters. -/
def jsToLower (s : String) : String :=
  String.mk (s.data.map Char.toLower)

/-- The sentiment pair returned by `analyzeSentiment`. -/
structure Sentiment where
  score : ℚ
  magnitude : ℚ
  deriving DecidableEq, Repr

/-- Body of the `words.forEach` loop of `analyzeSentiment`: a positive word
adds `0.1` to score and magnitude, otherwise a negative word subtracts `0.1`
from the score and adds `0.1` to the magnitude. -/
def sentStep (pos neg : List String) (acc : ℚ × ℚ) (word : String) : ℚ × ℚ :=
  if pos.contains word then (acc.1 + 1 / 10, acc.2 + 1 / 10)
  else if neg.contains word then (acc.1 - 1 / 10, acc.2 + 1 / 10)
  else acc

/-- Body of `analyzeSentiment` for a given pair of marker-word lists: lowercase,
split on whitespace, accumulate, then clamp the score to `[-1, 1]` with
`Math.max(-1, Math.min(1, score))` and the magnitude with
`Math.min(1, magnitude)`. -/
def analyzeSentimentWith (pos neg : List String) (text : String) : Sentiment :=
  let words := jsSplitWhitespace (jsToLower text)
  let sm := words.foldl (sentStep pos neg) (0, 0)
  ⟨max (-1) (min 1 sm.1), min 1 sm.2⟩

/-- Positive marker words of the first server variant. -/
def positiveWords : List String :=
  ["good", "great", "excellent", "amazing", "happy"]

/-- Negative marker words of the first server variant. -/
def negativeWords : List String :=
  ["bad", "terrible", "awful", "hate", "sad"]

/-- Positive marker words of the map-cache server variant. -/
def positiveWordsMC : List String :=
  ["good", "great", "excellent", "amazing", "wonderful", "fantastic",
   "love", "like", "happy", "excited"]

/-- Negative marker words of the map-cache server variant. -/
def negativeWordsMC : List String :=
  ["bad", "terrible", "awful", "hate", "dislike", "sad", "angry",
   "frustrated", "confused", "difficult"]

/-- Function `analyzeSentiment` of the first server variant. -/
def analyzeSentiment (text : String) : Sentiment :=
  analyzeSentimentWith positiveWords negativeWords text

/-- Function `analyzeSentiment` of the map-cache server variant. -/
def analyzeSentimentMC (text : String) : Sentiment :=
  analyzeSentimentWith positiveWordsMC negativeWordsMC text

/-- A row of the `Subjects` reference table (first server variant). -/
structure SubjectRow where
  id : Nat
  name : String
  deriving DecidableEq, Repr

/-- A row of the `ChatMessages` table of the first server variant, which
keys messages by `subjectId`. -/
structure ChatRow where
  userId : Nat
  subjectId : Nat
  sender : String
  text : String
  timestamp : Nat
  deriving DecidableEq, Repr

/-- A row of the `MoodLogs` table of the first server variant. -/
structure MoodRow where
  userId : Nat
  subjectId : Nat
  score : ℚ
  magnitude : ℚ
  message : String
  timestamp : Nat
  deriving DecidableEq, Repr

/-- Database state of the first server variant: the `Subjects` reference
table, the two append-only tables, and the logical clock standing in for
`CURRENT_TIMESTAMP`. -/
structure Db where
  subjects : List SubjectRow
  chat : List ChatRow
  moods : List MoodRow
  clock : Nat
  deriving DecidableEq, Repr

/-- Query `SELECT id FROM Subjects WHERE name = ?` (first matching row). -/
def findSubject (subjects : List SubjectRow) (name : String) : Option SubjectRow :=
  subjects.find? (fun s => s.name = name)

/-- Statement `INSERT INTO ChatMessages (userId, subjectId, sender, text)`: the
timestamp defaults to the current clock and the clock advances. -/
def insertChat (db : Db) (userId subjectId : Nat) (sender text : String) : Db :=
  { db with
    chat := db.chat ++ [⟨userId, subjectId, sender, text, db.clock⟩],
    clock := db.clock + 1 }

/-- Statement `INSERT INTO MoodLogs (userId, subjectId, score, magnitude, message)`. -/
def insertMood (db : Db) (userId subjectId : Nat) (score magnitude : ℚ)
    (message : String) : Db :=
  { db with
    moods := db.moods ++ [⟨userId, subjectId, score, magnitude, message, db.clock⟩],
    clock := db.clock + 1 }

/-- Outcome of the external completion call as seen by the handler. -/
inductive ProviderResult where
  /-- Variable `process.env.OPENROUTER_API_KEY` is not set: no call is made. -/
  | noKey : ProviderResult
  /-- Either `fetch` or `response.json()` threw: the `catch (apiError)` branch. -/
  | apiError : ProviderResult
  /-- A body was parsed; the argument is the value of the optional chain
  `data.choices?.[0]?.message?.content` (`none` when the chain breaks,
  which also covers non-success statuses carrying an error body). -/
  | success : Option String → ProviderResult
  deriving DecidableEq, Repr

/-- JavaScript `v || d` applied to the optional content chain: `undefined`
and the empty string are both falsy. -/
def jsStringOr (v : Option String) (d : String) : String :=
  match v with
  | none => d
  | some s => if s = "" then d else s

/-- The `aiResponse` computed by the `/api/chat` handler of the first variant for
each provider outcome. -/
def chatAiResponse (provider : ProviderResult) (subject message : String) : String :=
  match provider with
  | .success content => jsStringOr content "I couldn\x27t generate a response."
  | .apiError =>
      "I\x27m having trouble connecting to my knowledge base. Please try again later."
  | .noKey =>
      "I\x27m here to help with " ++ subject ++ "! " ++
        (if message.contains '?' then
          "That\x27s an interesting question. Let me think about it..."
        else
          "Could you tell me more about what you\x27re looking for?")

/-- The JSON payload of a successful chat response. -/
structure ChatOk where
  aiResponse : String
  sentiment : Sentiment
  deriving DecidableEq, Repr

/-- Result of a `/api/chat` request. -/
inductive ChatResult where
  /-- Status 200 with the response body holding `aiResponse` and `sentiment`. -/
  | ok : ChatOk → ChatResult
  /-- Status 400 with the error text `Invalid subject.` -/
  | invalidSubject : ChatResult
  /-- Status 500 with the generic chat-processing error text. -/
  | internalError : ChatResult
  deriving DecidableEq, Repr

/-- The `POST /api/chat` handler of the first variant. `failAt k` tells whether
the `k`-th `db.run` insert of this request throws (0: user message, 1: ai
message, 2: mood log); a throw is caught and answered with a generic 500,
and the inserts already performed stay in place (the source opens no
transaction). Subject validation happens before the provider outcome is
consulted and before any insert. -/
def handleChat (db : Db) (failAt : Nat → Bool) (provider : ProviderResult)
    (userId : Nat) (message subject : String) : ChatResult × Db :=
  match findSubject db.subjects subject with
  | none => (.invalidSubject, db)
  | some srow =>
    let aiResponse := chatAiResponse provider subject message
    if failAt 0 then (.internalError, db)
    else
      let db1 := insertChat db userId srow.id "user" message
      if failAt 1 then (.internalError, db1)
      else
        let db2 := insertChat db1 userId srow.id "ai" aiResponse
        let s := analyzeSentiment message
        if failAt 2 then (.internalError, db2)
        else
          let db3 := insertMood db2 userId srow.id s.score s.magnitude message
          (.ok ⟨aiResponse, s⟩, db3)

/-- Ordering used by `ORDER BY timestamp ASC`. -/
def tsLe (a b : ChatRow) : Prop := a.timestamp ≤ b.timestamp

instance : DecidableRel tsLe := fun a b => Nat.decLe a.timestamp b.timestamp

instance : IsTotal ChatRow tsLe := ⟨fun a b => Nat.le_total a.timestamp b.timestamp⟩

instance : IsTrans ChatRow tsLe := ⟨fun _ _ _ => Nat.le_trans⟩

/-- The `GET /api/history/:userId?subject=` handler of the first variant: resolve
the subject (400 when unknown), then
`SELECT ... WHERE userId = ? AND subjectId = ? ORDER BY timestamp ASC`.
The handler destructures only `subject` from the query string, so a `limit`
query parameter is accepted but never read. -/
def getHistory (db : Db) (userId : Nat) (subject : String)
    (limit : Option Nat) : Option (List ChatRow) :=
  match findSubject db.subjects subject with
  | none => none
  | some srow =>
    let _ := limit
    some (List.insertionSort tsLe
      (db.chat.filter (fun r => r.userId = userId && r.subjectId = srow.id)))

/-- A mood-log row joined with its subject name, as produced by the
mood query of the first variant. -/
structure MoodView where
  subject : String
  score : ℚ
  magnitude : ℚ
  message : String
  timestamp : Nat
  deriving DecidableEq, Repr

/-- Ordering used by `ORDER BY timestamp DESC`. -/
def tsGe (a b : MoodView) : Prop := b.timestamp ≤ a.timestamp

instance : DecidableRel tsGe := fun a b => Nat.decLe b.timestamp a.timestamp

instance : IsTotal MoodView tsGe := ⟨fun a b => Nat.le_total b.timestamp a.timestamp⟩

instance : IsTrans MoodView tsGe := ⟨fun _ _ _ h h2 => Nat.le_trans h2 h⟩

/-- Query `SELECT id FROM Subjects WHERE id = ?`, used for the join. -/
def findSubjectById (subjects : List SubjectRow) (id : Nat) : Option SubjectRow :=
  subjects.find? (fun s => s.id = id)

/-- The `GET /api/moodlogs/:userId` handler of the first variant:
`SELECT ... FROM MoodLogs ml JOIN Subjects s ... WHERE ml.userId = ?
ORDER BY ml.timestamp DESC`. The route reads no query parameter at all, so
a `days` argument is accepted but never read. -/
def getMoodLogs (db : Db) (userId : Nat) (days : Option Nat) : List MoodView :=
  let _ := days
  List.insertionSort tsGe
    ((db.moods.filter (fun m => m.userId = userId)).filterMap
      (fun m => (findSubjectById db.subjects m.subjectId).map
        (fun s => ⟨s.name, m.score, m.magnitude, m.message, m.timestamp⟩)))

/-- A row of the `ChatMessages` table of the map-cache server variant, which
stores the subject name directly. -/
structure ChatRowMC where
  userId : Nat
  subject : String
  sender : String
  text : String
  timestamp : Nat
  deriving DecidableEq, Repr

/-- A row of the `MoodLogs` table of the map-cache server variant. -/
structure MoodRowMC where
  userId : Nat
  subject : String
  score : ℚ
  magnitude : ℚ
  message : String
  timestamp : Nat
  deriving DecidableEq, Repr

/-- Database state of the map-cache server variant (no `Subjects` table). -/
structure DbMC where
  chat : List ChatRowMC
  moods : List MoodRowMC
  clock : Nat
  deriving DecidableEq, Repr

/-- The inner `Map` of `userPdfContext`: subject name to uploaded text. -/
abbrev SubjectCtx := List (String × String)

/-- The in-memory `userPdfContext` map: user id to per-subject texts. -/
abbrev PdfCtx := List (Nat × SubjectCtx)

/-- Handler `POST /api/upload-pdf-content`: create the per-user inner map when
missing, then `userPdfContext.get(userId).set(subject, content)`. -/
def storePdf (ctx : PdfCtx) (userId : Nat) (subject content : String) : PdfCtx :=
  let userMap := (mapGet ctx userId).getD []
  mapSet ctx userId (mapSet userMap subject content)

/-- The context fetch at the top of the map-cache `/api/chat` handler:
empty string when the user has no inner map, otherwise
`subjectMap.get(subject) || ''`. -/
def fetchPdf (ctx : PdfCtx) (userId : Nat) (subject : String) : String :=
  match mapGet ctx userId with
  | none => ""
  | some m => (mapGet m subject).getD ""

/-- The canned per-subject replies of the map-cache variant, used when no
provider credential is configured. -/
def fallbackResponses : List (String × String) :=
  [("Quantum Physics",
    "I\x27d be happy to help with quantum physics! This is a fascinating field that deals with the behavior of matter and energy at the atomic scale. What specific concept would you like to explore?"),
   ("Molecular Biology",
    "Molecular biology is all about understanding life at the molecular level. I can help explain DNA, proteins, cellular processes, and more. What topic interests you?"),
   ("Advanced Calculus",
    "Calculus is a powerful mathematical tool! Whether it\x27s derivatives, integrals, or multivariable calculus, I\x27m here to help break down complex concepts. What are you working on?"),
   ("Machine Learning",
    "Machine learning is an exciting field where we teach computers to learn patterns from data. I can help with algorithms, neural networks, and practical applications. What would you like to know?"),
   ("World Literature",
    "Literature opens windows to different cultures and human experiences. I can discuss authors, themes, literary movements, and help analyze texts. What work or topic interests you?"),
   ("Modern History",
    "History helps us understand how we got to where we are today. I can discuss events, movements, key figures, and historical analysis. What period or event would you like to explore?")]

/-- The `aiResponse` computed by the map-cache `/api/chat` handler:
`fallbackResponses[subject] || default` when no credential is configured. -/
def chatAiResponseMC (provider : ProviderResult) (subject : String) : String :=
  match provider with
  | .success content =>
      jsStringOr content "I couldn\x27t generate a response at the moment."
  | .apiError =>
      "I\x27m having trouble connecting to my knowledge base right now. However, I can still help with "
        ++ subject ++ "! Could you try rephrasing your question?"
  | .noKey =>
      jsStringOr (mapGet fallbackResponses subject)
        ("I\x27m here to help with " ++ subject
          ++ "! What specific topic or question do you have?")

/-- Statement `INSERT INTO ChatMessages (userId, subject, sender, text)` of the
map-cache variant. -/
def insertChatMC (db : DbMC) (userId : Nat) (subject sender text : String) : DbMC :=
  { db with
    chat := db.chat ++ [⟨userId, subject, sender, text, db.clock⟩],
    clock := db.clock + 1 }

/-- Statement `INSERT INTO MoodLogs (userId, subject, score, magnitude, message)` of
the map-cache variant. -/
def insertMoodMC (db : DbMC) (userId : Nat) (subject : String)
    (score magnitude : ℚ) (message : String) : DbMC :=
  { db with
    moods := db.moods ++ [⟨userId, subject, score, magnitude, message, db.clock⟩],
    clock := db.clock + 1 }

/-- The map-cache `POST /api/chat` handler. It performs no subject
validation of any kind: the subject string flows straight into the prompt,
the fallback lookup and the inserted rows. The failure oracle plays the same
role as in `handleChat`. -/
def handleChatMC (db : DbMC) (failAt : Nat → Bool) (provider : ProviderResult)
    (userId : Nat) (message subject : String) : ChatResult × DbMC :=
  let aiResponse := chatAiResponseMC provider subject
  if failAt 0 then (.internalError, db)
  else
    let db1 := insertChatMC db userId subject "user" message
    if failAt 1 then (.internalError, db1)
    else
      let db2 := insertChatMC db1 userId subject "ai" aiResponse
      let s := analyzeSentimentMC message
      if failAt 2 then (.internalError, db2)
      else
        let db3 := insertMoodMC db2 userId subject s.score s.magnitude message
        (.ok ⟨aiResponse, s⟩, db3)

/-- Ordering used by `ORDER BY timestamp ASC` in the map-cache history query. -/
def tsLeMC (a b : ChatRowMC) : Prop := a.timestamp ≤ b.timestamp

instance : DecidableRel tsLeMC := fun a b => Nat.decLe a.timestamp b.timestamp

instance : IsTotal ChatRowMC tsLeMC := ⟨fun a b => Nat.le_total a.timestamp b.timestamp⟩

instance : IsTrans ChatRowMC tsLeMC := ⟨fun _ _ _ => Nat.le_trans⟩

/-- The map-cache `GET /api/history/:userId?subject=` handler:
`SELECT * FROM ChatMessages WHERE userId = ? AND subject = ?
ORDER BY timestamp ASC`, with no subject validation and no `limit`
handling (the handler destructures only `subject` from the query). -/
def getHistoryMC (db : DbMC) (userId : Nat) (subject : String)
    (limit : Option Nat) : List ChatRowMC :=
  let _ := limit
  List.insertionSort tsLeMC
    (db.chat.filter (fun r => r.userId = userId && r.subject = subject))

/-- Ordering used by `ORDER BY timestamp DESC` in the map-cache mood query. -/
def tsGeMC (a b : MoodRowMC) : Prop := b.timestamp ≤ a.timestamp

instance : DecidableRel tsGeMC := fun a b => Nat.decLe b.timestamp a.timestamp

instance : IsTotal MoodRowMC tsGeMC := ⟨fun a b => Nat.le_total b.timestamp a.timestamp⟩

instance : IsTrans MoodRowMC tsGeMC := ⟨fun _ _ _ h h2 => Nat.le_trans h2 h⟩

/-- The map-cache `GET /api/moodlogs/:userId` handler:
`SELECT * FROM MoodLogs WHERE userId = ? ORDER BY timestamp DESC`; the
route reads no query parameter, so a `days` argument is never consulted. -/
def getMoodLogsMC (db : DbMC) (userId : Nat) (days : Option Nat) : List MoodRowMC :=
  let _ := days
  List.insertionSort tsGeMC (db.moods.filter (fun m => m.userId = userId))

/-- A row of the `Users` table (the columns the login path touches). -/
structure UserRow where
  id : Nat
  name : String
  email : String
  password : String
  lastLogin : Option Nat
  deriving DecidableEq, Repr

/-- Result of a `POST /api/login` request (the signed token is issued by the
external `jsonwebtoken` collaborator and is not modelled). -/
inductive LoginResult where
  /-- Status 200 with the user id. -/
  | ok : Nat → LoginResult
  /-- Status 401 with the error text `Invalid email or password.` -/
  | invalidCredentials : LoginResult
  deriving DecidableEq, Repr

/-- Query `SELECT id, password FROM Users WHERE email = ?` (first match). -/
def findUserByEmail (users : List UserRow) (email : String) : Option UserRow :=
  users.find? (fun u => u.email = email)

/-- Statement `UPDATE Users SET last_login = CURRENT_TIMESTAMP WHERE id = ?`. -/
def updateLastLogin (users : List UserRow) (id now : Nat) : List UserRow :=
  users.map (fun u => if u.id = id then { u with lastLogin := some now } else u)

/-- The `POST /api/login` handler of the first variant. Here `verify` stands for
`bcrypt.compare` (an external collaborator): it receives the plaintext and
the stored hash. On success the last-login column of the user is set to the
current time and the user id is returned. -/
def login (users : List UserRow) (verify : String → String → Bool)
    (email password : String) (now : Nat) : LoginResult × List UserRow :=
  match findUserByEmail users email with
  | none => (.invalidCredentials, users)
  | some u =>
    if verify password u.password then (.ok u.id, updateLastLogin users u.id now)
    else (.invalidCredentials, users)

/-- The map-cache `POST /api/login` handler: same credential
checks, but it issues the token straight away and never touches
`last_login`. -/
def loginMC (users : List UserRow) (verify : String → String → Bool)
    (email password : String) : LoginResult × List UserRow :=
  match findUserByEmail users email with
  | none => (.invalidCredentials, users)
  | some u =>
    if verify password u.password then (.ok u.id, users)
    else (.invalidCredentials, users)

/-- Number of tokens of the lowercased, whitespace-split text that occur in
a given marker list; the spec counts occurrences this way. -/
def markerCount (markers : List String) (text : String) : Nat :=
  (jsSplitWhitespace (jsToLower text)).countP (fun w => markers.contains w)

/-- A sequence of context uploads applied in order to a cache state. -/
def applyStores (ctx : PdfCtx) (ops : List (Nat × String × String)) : PdfCtx :=
  ops.foldl (fun c op => storePdf c op.1 op.2.1 op.2.2) ctx

/-! ### Concrete states for counterexamples and witnesses -/

/-- The empty map-cache database. -/
def dbMC0 : DbMC := ⟨[], [], 0⟩

/-- A Subjects-table database with one subject and nothing else. -/
def dbA0 : Db := ⟨[⟨1, "Math"⟩], [], [], 0⟩

/-- A database holding two chat messages for user 1 in subject `Math`. -/
def dbH : Db :=
  ⟨[⟨1, "Math"⟩], [⟨1, 1, "user", "a", 0⟩, ⟨1, 1, "ai", "b", 1⟩], [], 2⟩

/-- A database holding two mood-log rows for user 1, 100 time units apart. -/
def dbM : Db :=
  ⟨[⟨1, "Math"⟩], [], [⟨1, 1, 0, 0, "old", 0⟩, ⟨1, 1, 0, 0, "new", 100⟩], 101⟩

/-- One registered user whose stored hash is the literal `hash1` and whose
last-login column is unset. -/
def usersL : List UserRow := [⟨1, "Ada", "ada@x.com", "hash1", none⟩]

/-- A concrete stand-in for `bcrypt.compare` used at witness inputs. -/
def verifyEq : String → String → Bool := fun p h => p == h

/-- Failure oracle making the second insert (the `ai` chat row) throw. -/
def failAtSecond : Nat → Bool := fun k => k == 1

/-- Failure oracle making the third insert (the mood-log row) throw. -/
def failAtThird : Nat → Bool := fun k => k == 2

/-! ### Helper lemmas -/

theorem jsStringOr_ne_empty (v : Option String) (d : String) (hd : d ≠ "") :
    jsStringOr v d ≠ "" := by
  cases v with
  | none => simpa [jsStringOr] using hd
  | some s =>
    by_cases hs : s = ""
    · simpa [jsStringOr, hs] using hd
    · simp [jsStringOr, hs]

theorem string_append_ne_empty (s t : String) (h : s ≠ "") : s ++ t ≠ "" := by
  cases s with
  | mk a =>
    cases t with
    | mk b =>
      intro he
      apply h
      have hd : a ++ b = [] := congrArg String.data he
      have ha : a = [] := (List.append_eq_nil.mp hd).1
      simp [ha]

theorem foldl_sentStep (pos neg : List String) (ws : List String) (s m : ℚ) :
    ws.foldl (sentStep pos neg) (s, m) =
      (s + (((ws.countP fun w => pos.contains w) : ℚ) -
            ((ws.countP fun w => !pos.contains w && neg.contains w) : ℚ)) / 10,
       m + (((ws.countP fun w => pos.contains w) : ℚ) +
            ((ws.countP fun w => !pos.contains w && neg.contains w) : ℚ)) / 10) := by
  induction ws generalizing s m with
  | nil => simp
  | cons w ws ih =>
    by_cases h1 : pos.contains w
    · simp only [List.foldl_cons, sentStep, h1, if_pos, List.countP_cons, ih]
      simp [h1]
      constructor <;> ring
    · by_cases h2 : neg.contains w
      · simp only [List.foldl_cons, sentStep, h1, h2, if_neg, if_pos,
          Bool.false_eq_true, not_false_eq_true, List.countP_cons, ih]
        simp [h1, h2]
        constructor <;> ring
      · simp only [List.foldl_cons, sentStep, h1, h2, List.countP_cons, ih]
        simp [h1, h2]

/-- Closed form of the estimator in terms of the two occurrence counts of
the `else if` cascade. -/
theorem analyzeSentimentWith_eq (pos neg : List String) (text : String) :
    analyzeSentimentWith pos neg text =
      ⟨max (-1) (min 1
          ((((jsSplitWhitespace (jsToLower text)).countP fun w => pos.contains w : ℚ) -
            ((jsSplitWhitespace (jsToLower text)).countP
              (fun w => !pos.contains w && neg.contains w) : ℚ)) / 10)),
        min 1
          ((((jsSplitWhitespace (jsToLower text)).countP fun w => pos.contains w : ℚ) +
            ((jsSplitWhitespace (jsToLower text)).countP
              (fun w => !pos.contains w && neg.contains w) : ℚ)) / 10)⟩ := by
  simp only [analyzeSentimentWith, foldl_sentStep]
  simp

theorem markers_disjoint_A :
    ∀ w : String, negativeWords.contains w → positiveWords.contains w = false := by
  intro w h
  have hmem : w ∈ negativeWords := by
    simpa using h
  fin_cases hmem <;> decide

theorem markers_disjoint_MC :
    ∀ w : String, negativeWordsMC.contains w → positiveWordsMC.contains w = false := by
  intro w h
  have hmem : w ∈ negativeWordsMC := by
    simpa using h
  fin_cases hmem <;> decide

/-- With disjoint marker lists, the `else if` count is just the count of
negative markers. -/
theorem negBranchCount_eq (pos neg : List String)
    (hdisj : ∀ w : String, neg.contains w → pos.contains w = false)
    (ws : List String) :
    (ws.countP fun w => !pos.contains w && neg.contains w) =
      ws.countP fun w => neg.contains w := by
  have hfun : (fun w => !pos.contains w && neg.contains w) =
      (fun w => neg.contains w) := by
    funext w
    cases h : neg.contains w
    · simp
    · rw [hdisj w h]
      rfl
  rw [hfun]

/-- Closed form in terms of marker counts, for disjoint marker lists. -/
theorem analyzeSentimentWith_markers (pos neg : List String) (text : String)
    (hdisj : ∀ w : String, neg.contains w → pos.contains w = false) :
    analyzeSentimentWith pos neg text =
      ⟨max (-1) (min 1 (((markerCount pos text : ℚ) -
          (markerCount neg text : ℚ)) / 10)),
        min 1 (((markerCount pos text : ℚ) +
          (markerCount neg text : ℚ)) / 10)⟩ := by
  rw [analyzeSentimentWith_eq, negBranchCount_eq pos neg hdisj]
  rfl

/-- Arithmetic behaviour of the two clamps for nonnegative counts. -/
theorem clamp_facts (P N : ℚ) (hP : 0 ≤ P) (hN : 0 ≤ N) :
    -1 ≤ max (-1) (min 1 ((P - N) / 10)) ∧
    max (-1) (min 1 ((P - N) / 10)) ≤ 1 ∧
    0 ≤ min 1 ((P + N) / 10) ∧
    min 1 ((P + N) / 10) ≤ 1 ∧
    |max (-1) (min 1 ((P - N) / 10))| ≤ min 1 ((P + N) / 10) := by
  have hb : 0 ≤ (P + N) / 10 := by positivity
  have h1 : |P - N| ≤ P + N := by
    rw [abs_sub_le_iff]
    constructor <;> linarith
  have habs : |(P - N) / 10| ≤ (P + N) / 10 := by
    rw [abs_div, abs_of_nonneg (by norm_num : (0:ℚ) ≤ 10)]
    linarith
  obtain ⟨hlo, hhi⟩ := abs_le.mp habs
  refine ⟨le_max_left _ _, max_le (by norm_num) (min_le_left _ _),
    le_min (by norm_num) hb, min_le_left _ _, ?_⟩
  rw [abs_le]
  constructor
  · rcases le_total ((P + N) / 10) 1 with h | h
    · rw [min_eq_right h]
      exact le_trans (le_min (by linarith) hlo) (le_max_right _ _)
    · rw [min_eq_left h]
      linarith [le_max_left (-1 : ℚ) (min 1 ((P - N) / 10))]
  · exact max_le (le_trans (by norm_num : (-1:ℚ) ≤ 0) (le_min (by norm_num) hb))
      (min_le_min le_rfl hhi)

/-- Invariants of the estimator for arbitrary marker lists. -/
theorem analyzeSentimentWith_invariant (pos neg : List String) (text : String) :
    -1 ≤ (analyzeSentimentWith pos neg text).score ∧
    (analyzeSentimentWith pos neg text).score ≤ 1 ∧
    0 ≤ (analyzeSentimentWith pos neg text).magnitude ∧
    (analyzeSentimentWith pos neg text).magnitude ≤ 1 ∧
    |(analyzeSentimentWith pos neg text).score| ≤
      (analyzeSentimentWith pos neg text).magnitude := by
  rw [analyzeSentimentWith_eq]
  exact clamp_facts _ _ (Nat.cast_nonneg _) (Nat.cast_nonneg _)

/-! ### Claim theorems -/

/-- C4: for every input text, the sentiment score of `analyzeSentiment`
(both server variants) equals the sum of `+0.1` per positive-marker
occurrence and `-0.1` per negative-marker occurrence over the lowercased,
whitespace-split tokens, clamped to `[-1, 1]`; the magnitude equals `+0.1`
per occurrence of either marker, clamped to `[0, 1]`; empty text yields
score `0` and magnitude `0`; and the bounds hold for arbitrary input. -/
theorem C4_sentiment_closed_form :
    (∀ text : String,
      analyzeSentiment text =
        ⟨max (-1) (min 1 (((markerCount positiveWords text : ℚ) -
            (markerCount negativeWords text : ℚ)) / 10)),
          max 0 (min 1 (((markerCount positiveWords text : ℚ) +
            (markerCount negativeWords text : ℚ)) / 10))⟩ ∧
      -1 ≤ (analyzeSentiment text).score ∧ (analyzeSentiment text).score ≤ 1 ∧
      0 ≤ (analyzeSentiment text).magnitude ∧
      (analyzeSentiment text).magnitude ≤ 1) ∧
    (∀ text : String,
      analyzeSentimentMC text =
        ⟨max (-1) (min 1 (((markerCount positiveWordsMC text : ℚ) -
            (markerCount negativeWordsMC text : ℚ)) / 10)),
          max 0 (min 1 (((markerCount positiveWordsMC text : ℚ) +
            (markerCount negativeWordsMC text : ℚ)) / 10))⟩ ∧
      -1 ≤ (analyzeSentimentMC text).score ∧ (analyzeSentimentMC text).score ≤ 1 ∧
      0 ≤ (analyzeSentimentMC text).magnitude ∧
      (analyzeSentimentMC text).magnitude ≤ 1) ∧
    analyzeSentiment "" = ⟨0, 0⟩ ∧ analyzeSentimentMC "" = ⟨0, 0⟩ := by
  have hA := analyzeSentimentWith_markers positiveWords negativeWords ""
    markers_disjoint_A
  have hMC := analyzeSentimentWith_markers positiveWordsMC negativeWordsMC ""
    markers_disjoint_MC
  have hp : markerCount positiveWords "" = 0 := by decide
  have hn : markerCount negativeWords "" = 0 := by decide
  have hpMC : markerCount positiveWordsMC "" = 0 := by decide
  have hnMC : markerCount negativeWordsMC "" = 0 := by decide
  rw [hp, hn] at hA
  rw [hpMC, hnMC] at hMC
  norm_num at hA hMC
  refine ⟨fun text => ?_, fun text => ?_, hA, hMC⟩
  · have hinv := analyzeSentimentWith_invariant positiveWords negativeWords text
    have heq := analyzeSentimentWith_markers positiveWords negativeWords text
      markers_disjoint_A
    have hb : (0:ℚ) ≤ min 1 (((markerCount positiveWords text : ℚ) +
        (markerCount negativeWords text : ℚ)) / 10) :=
      le_min (by norm_num) (by positivity)
    refine ⟨?_, hinv.1, hinv.2.1, hinv.2.2.1, hinv.2.2.2.1⟩
    rw [max_eq_right hb]
    exact heq
  · have hinv := analyzeSentimentWith_invariant positiveWordsMC negativeWordsMC text
    have heq := analyzeSentimentWith_markers positiveWordsMC negativeWordsMC text
      markers_disjoint_MC
    have hb : (0:ℚ) ≤ min 1 (((markerCount positiveWordsMC text : ℚ) +
        (markerCount negativeWordsMC text : ℚ)) / 10) :=
      le_min (by norm_num) (by positivity)
    refine ⟨?_, hinv.1, hinv.2.1, hinv.2.2.1, hinv.2.2.2.1⟩
    rw [max_eq_right hb]
    exact heq

/-- C10: for every input text and both server variants, the sentiment result
satisfies `0 ≤ magnitude` and `|score| ≤ magnitude`: every word occurrence
that moves the score by `0.1` also adds `0.1` to the magnitude, and the two
clamps preserve the relation. -/
theorem C10_score_dominated_by_magnitude :
    ∀ text : String,
      0 ≤ (analyzeSentiment text).magnitude ∧
      |(analyzeSentiment text).score| ≤ (analyzeSentiment text).magnitude ∧
      0 ≤ (analyzeSentimentMC text).magnitude ∧
      |(analyzeSentimentMC text).score| ≤ (analyzeSentimentMC text).magnitude := by
  intro text
  have h1 := analyzeSentimentWith_invariant positiveWords negativeWords text
  have h2 := analyzeSentimentWith_invariant positiveWordsMC negativeWordsMC text
  exact ⟨h1.2.2.1, h1.2.2.2.2, h2.2.2.1, h2.2.2.2.2⟩

theorem chatAiResponse_ne_empty (provider : ProviderResult)
    (subject message : String) : chatAiResponse provider subject message ≠ "" := by
  cases provider with
  | success content => exact jsStringOr_ne_empty _ _ (by decide)
  | apiError =>
    show ("I\x27m having trouble connecting to my knowledge base. Please try again later."
      : String) ≠ ""
    decide
  | noKey =>
    exact string_append_ne_empty _ _
      (string_append_ne_empty _ _
        (string_append_ne_empty _ _ (by decide)))

theorem chatAiResponseMC_ne_empty (provider : ProviderResult)
    (subject : String) : chatAiResponseMC provider subject ≠ "" := by
  cases provider with
  | success content => exact jsStringOr_ne_empty _ _ (by decide)
  | apiError =>
    exact string_append_ne_empty _ _
      (string_append_ne_empty _ _ (by decide))
  | noKey =>
    exact jsStringOr_ne_empty _ _
      (string_append_ne_empty _ _
        (string_append_ne_empty _ _ (by decide)))

/-- C1: for every chat request with a valid subject, the handler answers
with a non-empty `aiResponse` under every outcome of the external provider
call: configured with a malformed response (placeholder substituted),
configured but failing (canned error reply), or unconfigured (synthesized
fallback). Both server variants are covered; no provider outcome yields an
empty reply. -/
theorem C1_nonempty_ai_response :
    (∀ (provider : ProviderResult) (subject message : String),
      chatAiResponse provider subject message ≠ "" ∧
      chatAiResponseMC provider subject ≠ "") ∧
    (∀ (db : Db) (provider : ProviderResult) (userId : Nat)
        (message subject : String) (srow : SubjectRow),
      findSubject db.subjects subject = some srow →
      (handleChat db (fun _ => false) provider userId message subject).1 =
        .ok ⟨chatAiResponse provider subject message,
          analyzeSentiment message⟩) ∧
    (∀ (db : DbMC) (provider : ProviderResult) (userId : Nat)
        (message subject : String),
      (handleChatMC db (fun _ => false) provider userId message subject).1 =
        .ok ⟨chatAiResponseMC provider subject,
          analyzeSentimentMC message⟩) := by
  refine ⟨fun provider subject message =>
      ⟨chatAiResponse_ne_empty provider subject message,
       chatAiResponseMC_ne_empty provider subject⟩,
    fun db provider userId message subject srow h => ?_,
    fun db provider userId message subject => ?_⟩
  · simp [handleChat, h]
  · simp [handleChatMC]

/-- C2: a successfully completed chat request appends exactly two
`ChatMessages` rows — first sender `user` with the incoming message, then
sender `ai` with the returned `aiResponse`, same user and subject, with
strictly increasing timestamps — and exactly one `MoodLogs` row whose score
and magnitude come from `analyzeSentiment` applied to the incoming user message
only, never to the AI reply. Both server variants are covered. -/
theorem C2_chat_persistence :
    (∀ (db : Db) (provider : ProviderResult) (userId : Nat)
        (message subject : String) (srow : SubjectRow),
      findSubject db.subjects subject = some srow →
      (handleChat db (fun _ => false) provider userId message subject).2.chat =
        db.chat ++
          [⟨userId, srow.id, "user", message, db.clock⟩,
           ⟨userId, srow.id, "ai", chatAiResponse provider subject message,
             db.clock + 1⟩] ∧
      (handleChat db (fun _ => false) provider userId message subject).2.moods =
        db.moods ++
          [⟨userId, srow.id, (analyzeSentiment message).score,
            (analyzeSentiment message).magnitude, message, db.clock + 2⟩] ∧
      db.clock < db.clock + 1) ∧
    (∀ (db : DbMC) (provider : ProviderResult) (userId : Nat)
        (message subject : String),
      (handleChatMC db (fun _ => false) provider userId message subject).2.chat =
        db.chat ++
          [⟨userId, subject, "user", message, db.clock⟩,
           ⟨userId, subject, "ai", chatAiResponseMC provider subject,
             db.clock + 1⟩] ∧
      (handleChatMC db (fun _ => false) provider userId message subject).2.moods =
        db.moods ++
          [⟨userId, subject, (analyzeSentimentMC message).score,
            (analyzeSentimentMC message).magnitude, message, db.clock + 2⟩] ∧
      db.clock < db.clock + 1) := by
  constructor
  · intro db provider userId message subject srow h
    refine ⟨?_, ?_, Nat.lt_succ_self _⟩ <;>
      simp [handleChat, h, insertChat, insertMood]
  · intro db provider userId message subject
    refine ⟨?_, ?_, Nat.lt_succ_self _⟩ <;>
      simp [handleChatMC, insertChatMC, insertMoodMC]

/-- C3 counterexample: the claim asserts that every chat request with an
unknown subject fails with `InvalidSubject` (400) before persisting
anything, citing both handlers; but the map-cache `/api/chat` handler
performs no subject validation at all: with the made-up subject below it
answers 200 and persists two chat rows and a mood row. -/
theorem C3_counterexample :
    (handleChatMC dbMC0 (fun _ => false) .noKey 1 "hello"
        "Underwater Basket Weaving").1 ≠ .invalidSubject ∧
    (handleChatMC dbMC0 (fun _ => false) .noKey 1 "hello"
        "Underwater Basket Weaving").2.chat.length = 2 ∧
    (handleChatMC dbMC0 (fun _ => false) .noKey 1 "hello"
        "Underwater Basket Weaving").2.moods.length = 1 := by
  refine ⟨?_, ?_, ?_⟩ <;>
    simp [handleChatMC, dbMC0, insertChatMC, insertMoodMC]

/-- C3 (amended): in the Subjects-table server variant, a chat request
whose subject is not in the `Subjects` reference table fails with
`InvalidSubject` before the provider outcome is consulted and with the
database untouched, and every known subject passes validation; the
map-cache variant performs no subject validation and never answers
`InvalidSubject`. -/
theorem C3_subject_validation :
    (∀ (db : Db) (failAt : Nat → Bool) (provider : ProviderResult)
        (userId : Nat) (message subject : String),
      findSubject db.subjects subject = none →
      handleChat db failAt provider userId message subject =
        (.invalidSubject, db)) ∧
    (∀ (db : Db) (failAt : Nat → Bool) (provider : ProviderResult)
        (userId : Nat) (message subject : String) (srow : SubjectRow),
      findSubject db.subjects subject = some srow →
      (handleChat db failAt provider userId message subject).1 ≠
        .invalidSubject) ∧
    (∀ (db : DbMC) (failAt : Nat → Bool) (provider : ProviderResult)
        (userId : Nat) (message subject : String),
      (handleChatMC db failAt provider userId message subject).1 ≠
        .invalidSubject) := by
  refine ⟨fun db failAt provider userId message subject h => ?_,
    fun db failAt provider userId message subject srow h => ?_,
    fun db failAt provider userId message subject => ?_⟩
  · simp [handleChat, h]
  · by_cases h0 : failAt 0 <;> by_cases h1 : failAt 1 <;>
      by_cases h2 : failAt 2 <;> simp [handleChat, h, h0, h1, h2]
  · by_cases h0 : failAt 0 <;> by_cases h1 : failAt 1 <;>
      by_cases h2 : failAt 2 <;> simp [handleChatMC, h0, h1, h2]

/-- C9: chat persistence is not atomic. With a valid subject, if the insert
of the `ai` row fails (failure oracle index 1), or the mood-log insert
fails (index 2), the handler answers the generic 500 (`internalError`, no
`aiResponse` in the result) while the rows inserted earlier in the same
request — in particular the `user` chat row — remain in the store: no
transaction spans the three inserts. Both server variants are covered. -/
theorem C9_no_rollback :
    (∀ (db : Db) (provider : ProviderResult) (userId : Nat)
        (message subject : String) (srow : SubjectRow) (failAt : Nat → Bool),
      findSubject db.subjects subject = some srow → failAt 0 = false →
      (failAt 1 = true →
        handleChat db failAt provider userId message subject =
          (.internalError, insertChat db userId srow.id "user" message)) ∧
      (failAt 1 = false → failAt 2 = true →
        handleChat db failAt provider userId message subject =
          (.internalError,
            insertChat (insertChat db userId srow.id "user" message)
              userId srow.id "ai" (chatAiResponse provider subject message)))) ∧
    (∀ (db : DbMC) (provider : ProviderResult) (userId : Nat)
        (message subject : String) (failAt : Nat → Bool),
      failAt 0 = false →
      (failAt 1 = true →
        handleChatMC db failAt provider userId message subject =
          (.internalError, insertChatMC db userId subject "user" message)) ∧
      (failAt 1 = false → failAt 2 = true →
        handleChatMC db failAt provider userId message subject =
          (.internalError,
            insertChatMC (insertChatMC db userId subject "user" message)
              userId subject "ai" (chatAiResponseMC provider subject)))) := by
  constructor
  · intro db provider userId message subject srow failAt h h0
    constructor
    · intro h1
      simp [handleChat, h, h0, h1, insertChat]
    · intro h1 h2
      simp [handleChat, h, h0, h1, h2, insertChat]
  · intro db provider userId message subject failAt h0
    constructor
    · intro h1
      simp [handleChatMC, h0, h1, insertChatMC]
    · intro h1 h2
      simp [handleChatMC, h0, h1, h2, insertChatMC]

/-- C5 counterexample: the claim asserts that a supplied `limit` caps the
history to the most recent `limit` entries, but neither handler reads the
`limit` query parameter: with two stored messages and `limit = 1` the full
history of length 2 is returned. -/
theorem C5_counterexample :
    ((getHistory dbH 1 "Math" (some 1)).getD []).length = 2 ∧
    ¬ ((getHistory dbH 1 "Math" (some 1)).getD []).length ≤ 1 := by decide

/-- C5 (amended): `getHistory` returns all chat messages of the pair in
chronological order (non-decreasing timestamps, a permutation of the
matching rows); the `limit` argument has no effect in either server
variant. -/
theorem C5_history_ordering :
    (∀ (db : Db) (userId : Nat) (subject : String) (limit : Option Nat),
      getHistory db userId subject limit = getHistory db userId subject none) ∧
    (∀ (db : Db) (userId : Nat) (subject : String) (limit : Option Nat)
        (l : List ChatRow),
      getHistory db userId subject limit = some l → List.Sorted tsLe l) ∧
    (∀ (db : Db) (userId : Nat) (subject : String) (limit : Option Nat)
        (srow : SubjectRow),
      findSubject db.subjects subject = some srow →
      getHistory db userId subject limit =
        some (List.insertionSort tsLe (db.chat.filter
          (fun r => r.userId = userId && r.subjectId = srow.id))) ∧
      (List.insertionSort tsLe (db.chat.filter
          (fun r => r.userId = userId && r.subjectId = srow.id))).Perm
        (db.chat.filter
          (fun r => r.userId = userId && r.subjectId = srow.id))) ∧
    (∀ (db : DbMC) (userId : Nat) (subject : String) (limit : Option Nat),
      getHistoryMC db userId subject limit =
        getHistoryMC db userId subject none ∧
      List.Sorted tsLeMC (getHistoryMC db userId subject limit) ∧
      (getHistoryMC db userId subject limit).Perm
        (db.chat.filter
          (fun r => r.userId = userId && r.subject = subject))) := by
  refine ⟨fun db userId subject limit => rfl,
    fun db userId subject limit l h => ?_,
    fun db userId subject limit srow h => ?_,
    fun db userId subject limit =>
      ⟨rfl, List.sorted_insertionSort tsLeMC _, List.perm_insertionSort tsLeMC _⟩⟩
  · cases hs : findSubject db.subjects subject with
    | none => simp [getHistory, hs] at h
    | some srow =>
      have : l = List.insertionSort tsLe (db.chat.filter
          (fun r => r.userId = userId && r.subjectId = srow.id)) := by
        simp [getHistory, hs] at h
        exact h.symm
      rw [this]
      exact List.sorted_insertionSort tsLe _
  · exact ⟨by simp [getHistory, h], List.perm_insertionSort tsLe _⟩

/-- C6 counterexample: the claim asserts that a supplied `days` argument
restricts the mood logs to entries from the last `days` days, but neither
handler reads any query parameter: with `days = 1` an entry 100 time units
older than the newest one is still returned (second conjunct: it is not
within the last 1 day of the newest entry). -/
theorem C6_counterexample :
    (getMoodLogs dbM 1 (some 1)).map (fun v => v.timestamp) = [100, 0] ∧
    ¬ (100 ≤ 0 + 1) := by decide

/-- C6 (amended): `getMoodLogs` returns the mood-log entries of the user across
all subjects ordered newest first (non-increasing timestamps); the `days`
argument has no effect in either server variant. -/
theorem C6_moodlogs_ordering :
    (∀ (db : Db) (userId : Nat) (days : Option Nat),
      getMoodLogs db userId days = getMoodLogs db userId none ∧
      List.Sorted tsGe (getMoodLogs db userId days) ∧
      (getMoodLogs db userId days).Perm
        ((db.moods.filter (fun m => m.userId = userId)).filterMap
          (fun m => (findSubjectById db.subjects m.subjectId).map
            (fun s => ⟨s.name, m.score, m.magnitude, m.message, m.timestamp⟩)))) ∧
    (∀ (db : DbMC) (userId : Nat) (days : Option Nat),
      getMoodLogsMC db userId days = getMoodLogsMC db userId none ∧
      List.Sorted tsGeMC (getMoodLogsMC db userId days) ∧
      (getMoodLogsMC db userId days).Perm
        (db.moods.filter (fun m => m.userId = userId))) :=
  ⟨fun _ _ _ =>
    ⟨rfl, List.sorted_insertionSort tsGe _, List.perm_insertionSort tsGe _⟩,
   fun _ _ _ =>
    ⟨rfl, List.sorted_insertionSort tsGeMC _, List.perm_insertionSort tsGeMC _⟩⟩

theorem updateLastLogin_lastLogin (users : List UserRow) (id now : Nat) :
    (updateLastLogin users id now).map (fun v => v.lastLogin) =
      users.map (fun v => if v.id = id then some now else v.lastLogin) := by
  unfold updateLastLogin
  rw [List.map_map]
  refine List.map_congr_left fun v _ => ?_
  by_cases h : v.id = id <;> simp [h]

/-- C7 counterexample: the claim says a successful `authenticate` updates
the last-login timestamp of the user, citing both login handlers; but the
login of the map-cache variant never touches `last_login`: at the input below it
succeeds yet returns the user store unchanged, with the last-login column
still unset. -/
theorem C7_counterexample :
    loginMC usersL verifyEq "ada@x.com" "hash1" = (.ok 1, usersL) ∧
    usersL.map (fun u => u.lastLogin) = [none] := by decide

/-- C7 (amended): both login handlers fail with `InvalidCredentials` when
no user row matches the email or when the password hash does not verify,
and on success return the id of the matched user; only the Subjects-table
variant updates the last-login timestamp of the user, the map-cache variant
leaves the user store unchanged. -/
theorem C7_authenticate :
    (∀ (users : List UserRow) (verify : String → String → Bool)
        (email password : String) (now : Nat),
      findUserByEmail users email = none →
      login users verify email password now = (.invalidCredentials, users) ∧
      loginMC users verify email password = (.invalidCredentials, users)) ∧
    (∀ (users : List UserRow) (verify : String → String → Bool)
        (email password : String) (now : Nat) (u : UserRow),
      findUserByEmail users email = some u →
      verify password u.password = false →
      login users verify email password now = (.invalidCredentials, users) ∧
      loginMC users verify email password = (.invalidCredentials, users)) ∧
    (∀ (users : List UserRow) (verify : String → String → Bool)
        (email password : String) (now : Nat) (u : UserRow),
      findUserByEmail users email = some u →
      verify password u.password = true →
      login users verify email password now =
        (.ok u.id, updateLastLogin users u.id now) ∧
      (updateLastLogin users u.id now).map (fun v => v.lastLogin) =
        users.map (fun v => if v.id = u.id then some now else v.lastLogin) ∧
      loginMC users verify email password = (.ok u.id, users)) := by
  refine ⟨fun users verify email password now h => ?_,
    fun users verify email password now u h hv => ?_,
    fun users verify email password now u h hv => ?_⟩
  · exact ⟨by simp [login, h], by simp [loginMC, h]⟩
  · exact ⟨by simp [login, h, hv], by simp [loginMC, h, hv]⟩
  · exact ⟨by simp [login, h, hv], updateLastLogin_lastLogin users u.id now,
      by simp [loginMC, h, hv]⟩

theorem mapGet_mapSet_self {α β : Type} [DecidableEq α]
    (m : List (α × β)) (k : α) (v : β) : mapGet (mapSet m k v) k = some v := by
  induction m with
  | nil => simp [mapSet, mapGet]
  | cons p rest ih =>
    obtain ⟨k2, v2⟩ := p
    by_cases h : k2 = k <;> simp [mapSet, mapGet, h, ih]

theorem mapGet_mapSet_ne {α β : Type} [DecidableEq α]
    (m : List (α × β)) (k : α) (v : β) (k2 : α) (h : k2 ≠ k) :
    mapGet (mapSet m k v) k2 = mapGet m k2 := by
  induction m with
  | nil => simp [mapSet, mapGet, h.symm]
  | cons p rest ih =>
    obtain ⟨k3, v3⟩ := p
    by_cases h3 : k3 = k
    · subst h3
      simp [mapSet, mapGet, h.symm]
    · simp [mapSet, mapGet, h3, ih]

theorem fetchPdf_storePdf_same (ctx : PdfCtx) (u : Nat) (s c : String) :
    fetchPdf (storePdf ctx u s c) u s = c := by
  unfold storePdf fetchPdf
  rw [mapGet_mapSet_self]
  show (mapGet (mapSet ((mapGet ctx u).getD []) s c) s).getD "" = c
  rw [mapGet_mapSet_self]
  rfl

theorem fetchPdf_storePdf_other (ctx : PdfCtx) (u2 : Nat) (s2 c : String)
    (u : Nat) (s : String) (h : ¬(u2 = u ∧ s2 = s)) :
    fetchPdf (storePdf ctx u2 s2 c) u s = fetchPdf ctx u s := by
  by_cases hu : u2 = u
  · subst hu
    have hs : s ≠ s2 := fun he => h ⟨rfl, he.symm⟩
    unfold storePdf fetchPdf
    rw [mapGet_mapSet_self]
    show (mapGet (mapSet ((mapGet ctx u2).getD []) s2 c) s).getD "" =
      (match mapGet ctx u2 with
        | none => ""
        | some m => (mapGet m s).getD "")
    rw [mapGet_mapSet_ne _ _ _ _ hs]
    cases hm : mapGet ctx u2 <;> simp [hm, mapGet]
  · have hne : u ≠ u2 := Ne.symm hu
    unfold storePdf fetchPdf
    rw [mapGet_mapSet_ne _ _ _ _ hne]

theorem fetch_applyStores_untouched (u : Nat) (s : String) :
    ∀ (ops : List (Nat × String × String)) (ctx : PdfCtx),
      (∀ op ∈ ops, ¬(op.1 = u ∧ op.2.1 = s)) →
      fetchPdf (applyStores ctx ops) u s = fetchPdf ctx u s := by
  intro ops
  induction ops with
  | nil => intro ctx _; rfl
  | cons op ops ih =>
    intro ctx h
    have h1 : ¬(op.1 = u ∧ op.2.1 = s) := h op (List.mem_cons_self _ _)
    have hrest : ∀ op2 ∈ ops, ¬(op2.1 = u ∧ op2.2.1 = s) :=
      fun op2 hop2 => h op2 (List.mem_cons_of_mem _ hop2)
    calc fetchPdf (applyStores ctx (op :: ops)) u s
        = fetchPdf (applyStores (storePdf ctx op.1 op.2.1 op.2.2) ops) u s := rfl
      _ = fetchPdf (storePdf ctx op.1 op.2.1 op.2.2) u s := ih _ hrest
      _ = fetchPdf ctx u s := fetchPdf_storePdf_other ctx _ _ _ u s h1

/-- C8: the context cache is a last-write-wins map keyed by
(user, subject): fetching after a store for the same pair returns exactly
the stored value, re-storing overwrites the previous value, and a pair
never targeted by any store in a whole upload history fetches as empty. -/
theorem C8_context_cache :
    (∀ (ctx : PdfCtx) (u : Nat) (s c : String),
      fetchPdf (storePdf ctx u s c) u s = c) ∧
    (∀ (ctx : PdfCtx) (u : Nat) (s c1 c2 : String),
      fetchPdf (storePdf (storePdf ctx u s c1) u s c2) u s = c2) ∧
    (∀ (ops : List (Nat × String × String)) (u : Nat) (s : String),
      (∀ op ∈ ops, ¬(op.1 = u ∧ op.2.1 = s)) →
      fetchPdf (applyStores [] ops) u s = "") :=
  ⟨fun ctx u s c => fetchPdf_storePdf_same ctx u s c,
   fun _ u s _ c2 => fetchPdf_storePdf_same _ u s c2,
   fun ops u s h => fetch_applyStores_untouched u s ops [] h⟩

/-! ### Witnesses at concrete inputs -/

/-- Witness for C1 at concrete inputs. -/
theorem C1_witness :
    (handleChat dbA0 (fun _ => false) .noKey 1 "hi" "Math").1 =
      .ok ⟨chatAiResponse .noKey "Math" "hi", analyzeSentiment "hi"⟩ ∧
    (handleChatMC dbMC0 (fun _ => false) .noKey 1 "hi" "Math").1 =
      .ok ⟨chatAiResponseMC .noKey "Math", analyzeSentimentMC "hi"⟩ :=
  ⟨C1_nonempty_ai_response.2.1 dbA0 .noKey 1 "hi" "Math" ⟨1, "Math"⟩ (by decide),
   C1_nonempty_ai_response.2.2 dbMC0 .noKey 1 "hi" "Math"⟩

/-- Witness for C2 at concrete inputs. -/
theorem C2_witness :
    (handleChat dbA0 (fun _ => false) .noKey 1 "hi" "Math").2.chat =
      dbA0.chat ++
        [⟨1, 1, "user", "hi", dbA0.clock⟩,
         ⟨1, 1, "ai", chatAiResponse .noKey "Math" "hi", dbA0.clock + 1⟩] ∧
    (handleChat dbA0 (fun _ => false) .noKey 1 "hi" "Math").2.moods =
      dbA0.moods ++
        [⟨1, 1, (analyzeSentiment "hi").score, (analyzeSentiment "hi").magnitude,
          "hi", dbA0.clock + 2⟩] ∧
    dbA0.clock < dbA0.clock + 1 :=
  C2_chat_persistence.1 dbA0 .noKey 1 "hi" "Math" ⟨1, "Math"⟩ (by decide)

/-- Witness for C3 (amended) at concrete inputs. -/
theorem C3_witness :
    handleChat dbA0 (fun _ => false) .noKey 1 "hi" "Nope" =
      (.invalidSubject, dbA0) ∧
    (handleChat dbA0 (fun _ => false) .noKey 1 "hi" "Math").1 ≠
      .invalidSubject ∧
    (handleChatMC dbMC0 (fun _ => false) .noKey 1 "hi" "Math").1 ≠
      .invalidSubject :=
  ⟨C3_subject_validation.1 dbA0 (fun _ => false) .noKey 1 "hi" "Nope" (by decide),
   C3_subject_validation.2.1 dbA0 (fun _ => false) .noKey 1 "hi" "Math"
     ⟨1, "Math"⟩ (by decide),
   C3_subject_validation.2.2 dbMC0 (fun _ => false) .noKey 1 "hi" "Math"⟩

/-- Witness for C5 (amended) at concrete inputs. -/
theorem C5_witness :
    List.Sorted tsLe
      [(⟨1, 1, "user", "a", 0⟩ : ChatRow), ⟨1, 1, "ai", "b", 1⟩] ∧
    getHistory dbH 1 "Math" (some 1) =
      some (List.insertionSort tsLe (dbH.chat.filter
        (fun r => r.userId = 1 && r.subjectId = 1))) :=
  ⟨C5_history_ordering.2.1 dbH 1 "Math" (some 1) _ (by decide),
   (C5_history_ordering.2.2.1 dbH 1 "Math" (some 1) ⟨1, "Math"⟩ (by decide)).1⟩

/-- Witness for C7 (amended) at concrete inputs. -/
theorem C7_witness :
    (login usersL verifyEq "no@x.com" "pw" 5 = (.invalidCredentials, usersL) ∧
     loginMC usersL verifyEq "no@x.com" "pw" = (.invalidCredentials, usersL)) ∧
    (login usersL verifyEq "ada@x.com" "wrong" 5 =
        (.invalidCredentials, usersL) ∧
     loginMC usersL verifyEq "ada@x.com" "wrong" =
        (.invalidCredentials, usersL)) ∧
    (login usersL verifyEq "ada@x.com" "hash1" 5 =
        (.ok 1, updateLastLogin usersL 1 5) ∧
     (updateLastLogin usersL 1 5).map (fun v => v.lastLogin) =
        usersL.map (fun v => if v.id = 1 then some 5 else v.lastLogin) ∧
     loginMC usersL verifyEq "ada@x.com" "hash1" = (.ok 1, usersL)) :=
  ⟨C7_authenticate.1 usersL verifyEq "no@x.com" "pw" 5 (by decide),
   C7_authenticate.2.1 usersL verifyEq "ada@x.com" "wrong" 5
     ⟨1, "Ada", "ada@x.com", "hash1", none⟩ (by decide) (by decide),
   C7_authenticate.2.2 usersL verifyEq "ada@x.com" "hash1" 5
     ⟨1, "Ada", "ada@x.com", "hash1", none⟩ (by decide) (by decide)⟩

/-- Witness for C8 at concrete inputs. -/
theorem C8_witness :
    fetchPdf (storePdf [] 1 "Math" "notes") 1 "Math" = "notes" ∧
    fetchPdf (storePdf (storePdf [] 1 "Math" "v1") 1 "Math" "v2") 1 "Math" =
      "v2" ∧
    fetchPdf (applyStores [] [(2, "Bio", "x")]) 1 "Math" = "" :=
  ⟨C8_context_cache.1 [] 1 "Math" "notes",
   C8_context_cache.2.1 [] 1 "Math" "v1" "v2",
   C8_context_cache.2.2 [(2, "Bio", "x")] 1 "Math" (by decide)⟩

/-- Witness for C9 at concrete inputs. -/
theorem C9_witness :
    handleChat dbA0 failAtSecond .noKey 1 "hi" "Math" =
      (.internalError, insertChat dbA0 1 1 "user" "hi") ∧
    handleChat dbA0 failAtThird .noKey 1 "hi" "Math" =
      (.internalError,
        insertChat (insertChat dbA0 1 1 "user" "hi") 1 1 "ai"
          (chatAiResponse .noKey "Math" "hi")) ∧
    handleChatMC dbMC0 failAtSecond .noKey 1 "hi" "Math" =
      (.internalError, insertChatMC dbMC0 1 "Math" "user" "hi") :=
  ⟨(C9_no_rollback.1 dbA0 .noKey 1 "hi" "Math" ⟨1, "Math"⟩ failAtSecond
      (by decide) (by decide)).1 (by decide),
   (C9_no_rollback.1 dbA0 .noKey 1 "hi" "Math" ⟨1, "Math"⟩ failAtThird
      (by decide) (by decide)).2 (by decide) (by decide),
   (C9_no_rollback.2 dbMC0 .noKey 1 "hi" "Math" failAtSecond (by decide)).1
     (by decide)⟩

end SmartLearning
